import Mathlib

/-!
Verification of the IRO (Incident Response Orchestrator) core:
a shallow embedding of `src/iro/orchestrator.py`,
`src/iro/remediation/executor.py` and `src/iro/utils/circuit_breaker.py`
into Lean 4, together with theorems settling the frozen claims about
the incident lifecycle state machine, the circuit breaker, the
remediation executor, and the periodic maintenance loop.

Time is modelled as a natural number of seconds (a monotone clock);
`datetime.now()` values become `Nat` arguments threaded to the
operations that read the clock.
-/

namespace IRO

/-! ## Circuit breaker (`src/iro/utils/circuit_breaker.py`) -/

/-- The `CircuitState` enum (circuit_breaker.py lines 12-16). -/
inductive CircuitState where
  | closed
  | open
  | halfOpen
  deriving DecidableEq, Repr

/-- Mutable state of a `CircuitBreaker` instance
(circuit_breaker.py lines 24-43): thresholds are configuration,
`state`, `failure_count`, `success_count`, `last_failure_time` are
the mutable fields.  `last_failure_time` is an `Option Nat` clock
value, `none` until the first failure is recorded. -/
structure CircuitBreaker where
  failure_threshold : Nat
  reset_timeout : Nat
  success_threshold : Nat
  state : CircuitState
  failure_count : Nat
  success_count : Nat
  last_failure_time : Option Nat
  deriving DecidableEq, Repr

namespace CircuitBreaker

/-- Constructor `__init__` with the given thresholds: state closed, counters
zero, no failure recorded yet (circuit_breaker.py lines 36-40). -/
def init (ft rt st : Nat) : CircuitBreaker :=
  { failure_threshold := ft, reset_timeout := rt, success_threshold := st
    state := .closed, failure_count := 0, success_count := 0
    last_failure_time := none }

/-- Method `_transition_to_closed` (circuit_breaker.py lines 102-107). -/
def transitionToClosed (cb : CircuitBreaker) : CircuitBreaker :=
  { cb with state := .closed, failure_count := 0, success_count := 0 }

/-- Method `_transition_to_open` (circuit_breaker.py lines 109-113):
resets `success_count` only. -/
def transitionToOpen (cb : CircuitBreaker) : CircuitBreaker :=
  { cb with state := .open, success_count := 0 }

/-- Method `_transition_to_half_open` (circuit_breaker.py lines 115-119). -/
def transitionToHalfOpen (cb : CircuitBreaker) : CircuitBreaker :=
  { cb with state := .halfOpen, success_count := 0 }

/-- Method `can_execute` (circuit_breaker.py lines 45-61).  `now` is the
current clock; the open branch compares `now - last_failure_time`
against `reset_timeout` (written additively, which agrees with the
signed-subtraction comparison for a monotone clock).  Returns the
updated breaker (the lazy open → half_open transition is a side
effect of the query) together with the boolean answer. -/
def canExecute (now : Nat) (cb : CircuitBreaker) : CircuitBreaker × Bool :=
  match cb.state with
  | .closed => (cb, true)
  | .open =>
    match cb.last_failure_time with
    | some t =>
      if t + cb.reset_timeout ≤ now then (cb.transitionToHalfOpen, true)
      else (cb, false)
    | none => (cb, false)
  | .halfOpen => (cb, true)

/-- Method `record_success` (circuit_breaker.py lines 63-71). -/
def recordSuccess (cb : CircuitBreaker) : CircuitBreaker :=
  match cb.state with
  | .halfOpen =>
    let cb := { cb with success_count := cb.success_count + 1 }
    if cb.success_threshold ≤ cb.success_count then cb.transitionToClosed else cb
  | .closed => { cb with failure_count := 0 }
  | .open => cb

/-- Method `record_failure` (circuit_breaker.py lines 73-82): increments the
failure count and stamps `last_failure_time := now` unconditionally,
then transitions closed → open when the threshold is reached, and
half_open → open on any failure. -/
def recordFailure (now : Nat) (cb : CircuitBreaker) : CircuitBreaker :=
  let cb := { cb with failure_count := cb.failure_count + 1
                      last_failure_time := some now }
  match cb.state with
  | .closed =>
    if cb.failure_threshold ≤ cb.failure_count then cb.transitionToOpen else cb
  | .halfOpen => cb.transitionToOpen
  | .open => cb

/-- A run of consecutive `record_failure` calls at the given clock
times, in list order. -/
def recordFailures (cb : CircuitBreaker) (ts : List Nat) : CircuitBreaker :=
  ts.foldl (fun c t => recordFailure t c) cb

/-- A run of `n` consecutive `record_success` calls. -/
def recordSuccesses (cb : CircuitBreaker) : Nat → CircuitBreaker
  | 0 => cb
  | n + 1 => recordSuccesses (recordSuccess cb) n

end CircuitBreaker

/-! ## Incident data model

`src/iro/core/models.py` is not part of the sources provided; the
entity definitions below are modelled from the spec (§3 Data Model and
§4.6), keeping exactly the fields the orchestrator and executor code
reads or writes. -/

/-- Modelled from the spec: `SeverityLevel` enum of `core/models.py`
(absent from the sources), the ordered severity
info < warning < error < critical < emergency (spec §3). -/
inductive SeverityLevel where
  | info
  | warning
  | error
  | critical
  | emergency
  deriving DecidableEq, Repr

/-- Modelled from the spec: `IncidentState` enum of `core/models.py`
(absent from the sources), states of the lifecycle state machine
`new → analyzing → remediating → resolved | failed` (spec §4.6);
the members NEW, ANALYZING, REMEDIATING, RESOLVED, FAILED are the
ones the orchestrator code references. -/
inductive IncidentState where
  | new
  | analyzing
  | remediating
  | resolved
  | failed
  deriving DecidableEq, Repr

/-- States `resolved` and `failed` are the terminal states (spec §4.6). -/
def IncidentState.isTerminal : IncidentState → Bool
  | .resolved => true
  | .failed => true
  | _ => false

/-- One entry of an analysis's `recommended_actions` list, a dict in
the Python code; the fields are the keys the executor reads
(executor.py lines 158-166): `action`, `priority`, `parameters`,
`estimated_time`, each possibly absent. -/
structure ActionRec where
  action : Option String
  priority : Option String
  parameters : List (String × String)
  estimated_time : Option String
  deriving DecidableEq, Repr

/-- An analysis result dict; the fields are the keys the orchestrator
and executor read: `confidence` (orchestrator.py line 286, default 0)
and `recommended_actions` (executor.py line 151, default `[]`), plus
the `summary` text.  Rationals stand in for Python floats (all the
constants compared — 0.6, 0.7 — are far enough apart that float and
exact comparison agree). -/
structure Analysis where
  summary : String
  confidence : Option ℚ
  recommended_actions : List ActionRec
  deriving DecidableEq, Repr

/-- Summary dict published with `remediation.completed`
(executor.py lines 248-253). -/
structure RemediationResult where
  execution_state : String
  steps_completed : Nat
  total_steps : Nat
  duration : Nat
  deriving DecidableEq, Repr

/-- Modelled from the spec: the `Incident` entity of `core/models.py`
(absent from the sources), spec §3 — restricted to the fields the
orchestrator code reads or mutates.  `incidentType` is the Python
field `type`.  Clock values are `Nat` seconds. -/
structure Incident where
  id : String
  service : String
  incidentType : String
  severity : SeverityLevel
  state : IncidentState
  root_cause : Option Analysis
  remediation_result : Option RemediationResult
  created_at : Nat
  updated_at : Nat
  resolved_at : Option Nat
  deriving DecidableEq, Repr

/-- The remediation section of the configuration
(`RemediationConfig` in config.py): the fields the claims exercise. -/
structure RemediationConfig where
  dry_run : Bool
  require_approval : Bool
  max_concurrent : Nat
  deriving DecidableEq, Repr

/-! ## Orchestrator (`src/iro/orchestrator.py`)

The handlers are embedded as per-incident functions; the registry
lookup that precedes each (`self.incidents.get(incident_id)`) is
modelled at the registry level further below. -/

/-- Method `_should_remediate` (orchestrator.py lines 274-296): the fixed
rule order dry-run, severity, confidence, approval; first match wins.
`analysis.get('confidence', 0)` is `(analysis.confidence.getD 0)`. -/
def shouldRemediate (cfg : RemediationConfig) (incident : Incident)
    (analysis : Analysis) : Bool :=
  if cfg.dry_run then false
  else if incident.severity = .info ∨ incident.severity = .warning then false
  else if analysis.confidence.getD 0 < 7/10 then false
  else if cfg.require_approval then false
  else true

/-- Result of running `_handle_analysis_completed` on one incident:
the updated incident, the list of states carried by the
`dashboard.incident_update` publishes the handler emits (in order),
and whether a `remediation.request` was published. -/
structure AnalysisOutcome where
  incident : Incident
  broadcastStates : List IncidentState
  remediationRequested : Bool
  deriving DecidableEq, Repr

/-- Handler `_handle_analysis_completed` (orchestrator.py lines 151-189),
after the registry lookup: stores the analysis as `root_cause`, sets
the state to REMEDIATING and broadcasts it (lines 164-172); then, if
`_should_remediate` holds, publishes `remediation.request`, otherwise
sets the state to RESOLVED with `resolved_at` stamped and broadcasts
again (lines 174-186). -/
def handleAnalysisCompleted (cfg : RemediationConfig) (analysis : Analysis)
    (now : Nat) (incident : Incident) : AnalysisOutcome :=
  let inc1 := { incident with root_cause := some analysis
                              state := IncidentState.remediating
                              updated_at := now }
  if shouldRemediate cfg inc1 analysis then
    { incident := inc1, broadcastStates := [.remediating]
      remediationRequested := true }
  else
    let inc2 := { inc1 with state := IncidentState.resolved
                            resolved_at := some now }
    { incident := inc2, broadcastStates := [.remediating, .resolved]
      remediationRequested := false }

/-- Handler `_handle_remediation_completed` (orchestrator.py lines 191-220),
after the registry lookup: on success the state becomes RESOLVED with
`resolved_at` stamped; on failure the state becomes FAILED (and
`resolved_at` is left untouched); either way the result summary and
`updated_at` are recorded. -/
def handleRemediationCompleted (success : Bool) (result : RemediationResult)
    (now : Nat) (incident : Incident) : Incident :=
  let inc :=
    if success then
      { incident with state := IncidentState.resolved
                      resolved_at := some now }
    else
      { incident with state := IncidentState.failed }
  { inc with remediation_result := some result, updated_at := now }

/-- Handler `_handle_incident_detected` (orchestrator.py lines 112-147),
restricted to the mutation of the stored incident: the freshly
constructed incident is stored and moved to ANALYZING with
`updated_at` stamped (lines 121-125). -/
def handleIncidentDetected (now : Nat) (incident : Incident) : Incident :=
  { incident with state := IncidentState.analyzing, updated_at := now }

/-- Method `_get_basic_remediation` (orchestrator.py lines 254-272): the
static fallback action table keyed on incident type, defaulting to a
single `investigate_manually` action.  The Python dict entries carry
`action` and `priority` keys (and for `scale_replicas` a `params`
key, which the executor does not read — it reads `parameters`). -/
def getBasicRemediation (incidentType : String) : List ActionRec :=
  if incidentType = "high_cpu" then
    [ { action := some "scale_replicas", priority := some "high"
        parameters := [], estimated_time := none },
      { action := some "check_cpu_limits", priority := some "medium"
        parameters := [], estimated_time := none } ]
  else if incidentType = "high_memory" then
    [ { action := some "restart_pod", priority := some "high"
        parameters := [], estimated_time := none },
      { action := some "check_memory_limits", priority := some "medium"
        parameters := [], estimated_time := none } ]
  else if incidentType = "pod_restart" then
    [ { action := some "check_pod_logs", priority := some "high"
        parameters := [], estimated_time := none },
      { action := some "verify_health_checks", priority := some "medium"
        parameters := [], estimated_time := none } ]
  else
    [ { action := some "investigate_manually", priority := some "medium"
        parameters := [], estimated_time := none } ]

/-- The synthesized analysis of `_handle_analysis_fallback`
(orchestrator.py lines 227-236): fixed confidence 0.6, rule-based
recommended actions. -/
def fallbackAnalysis (incident : Incident) : Analysis :=
  { summary := "Basic analysis for " ++ incident.incidentType ++ " in "
      ++ incident.service
    confidence := some (3/5)
    recommended_actions := getBasicRemediation incident.incidentType }

/-- Handler `_handle_analysis_fallback` (orchestrator.py lines 222-241):
feeds the synthesized analysis through `_handle_analysis_completed`
for the same incident. -/
def handleAnalysisFallback (cfg : RemediationConfig) (now : Nat)
    (incident : Incident) : AnalysisOutcome :=
  handleAnalysisCompleted cfg (fallbackAnalysis incident) now incident

/-! ## Remediation executor (`src/iro/remediation/executor.py`) -/

/-- The whitespace characters stripped by Python's `str.strip()`
(space, tab, newline, carriage return, vertical tab, form feed;
further Unicode whitespace is irrelevant to the inputs at hand). -/
def isWsChar (c : Char) : Bool :=
  c.toNat = 32 || c.toNat = 9 || c.toNat = 10 || c.toNat = 13 ||
  c.toNat = 11 || c.toNat = 12

/-- ASCII lowering, the effect of Python's `str.lower()` on the
inputs at hand. -/
def asciiLower (c : Char) : Char :=
  if 65 ≤ c.toNat ∧ c.toNat ≤ 90 then Char.ofNat (c.toNat + 32) else c

/-- ASCII decimal digit test. -/
def isDigitCh (c : Char) : Bool := 48 ≤ c.toNat && c.toNat ≤ 57

/-- Python `str.strip()`: drop whitespace from both ends. -/
def stripWs (cs : List Char) : List Char :=
  ((cs.dropWhile isWsChar).reverse.dropWhile isWsChar).reverse

/-- The digit part of a Python decimal integer literal as accepted by
`int(str)`: one or more digits with single underscores allowed only
between digits. -/
def validDigits : List Char → Bool
  | [] => false
  | [c] => isDigitCh c
  | c :: d :: rest =>
    isDigitCh c && (if d = '_' then validDigits rest else validDigits (d :: rest))

/-- Numeric value of a digit run (underscores skipped). -/
def digitsVal (cs : List Char) : Nat :=
  (cs.filter (fun c => c ≠ '_')).foldl (fun acc c => acc * 10 + (c.toNat - 48)) 0

/-- Python `int(str)`: strip surrounding whitespace, allow an optional
sign, then a digit run with underscores between digits; `none` models
the `ValueError` raised on anything else. -/
def pyIntParse (cs : List Char) : Option Int :=
  match stripWs cs with
  | [] => none
  | c :: rest =>
    if c = '+' then
      (if validDigits rest then some (digitsVal rest : Int) else none)
    else if c = '-' then
      (if validDigits rest then some (-(digitsVal rest : Int)) else none)
    else
      (if validDigits (c :: rest) then some (digitsVal (c :: rest) : Int) else none)

/-- Method `_parse_time_estimate` (executor.py lines 566-577) on the
character list of its argument: lower and strip, then dispatch on the
final character: `s`→×1, `m`→×60, `h`→×3600 applied to
`int(time_str[:-1])` — whose `ValueError` propagates out of the
function, modelled as `Except.error` — and default 300 when no
recognised suffix is present. -/
def parseTimeEstimateL (cs : List Char) : Except Unit Int :=
  let t := stripWs (cs.map asciiLower)
  match t.getLast? with
  | some c =>
    if c = 's' then (pyIntParse t.dropLast).elim (.error ()) (fun n => .ok n)
    else if c = 'm' then (pyIntParse t.dropLast).elim (.error ()) (fun n => .ok (n * 60))
    else if c = 'h' then (pyIntParse t.dropLast).elim (.error ()) (fun n => .ok (n * 3600))
    else .ok 300
  | none => .ok 300

/-- Method `_parse_time_estimate` on a string. -/
def parseTimeEstimate (s : String) : Except Unit Int :=
  parseTimeEstimateL s.data

/-- A `RemediationStep` (the fields of `core/models.py` the executor
writes at construction, executor.py lines 159-166; the mutable
outcome fields success/output/error/timing are tracked by the
execution model below rather than stored). -/
structure RemediationStep where
  name : String
  description : String
  action_type : String
  parameters : List (String × String)
  timeout_seconds : Int
  continue_on_error : Bool
  deriving DecidableEq, Repr

/-- A `RemediationPlan` restricted to the fields the verified claims
read: the owning incident and the ordered step list.  The code
additionally stores a strategy tag and computes `risk_score`,
`estimated_duration` and the advisory `approval_required` flag
(executor.py lines 169-172), none of which any verified property
consults. -/
structure RemediationPlan where
  incident_id : String
  steps : List RemediationStep
  deriving DecidableEq, Repr

/-- One step record built from one recommended action
(executor.py lines 158-166): `i` is the `enumerate` index;
`estimated_time` defaults to `"5m"` before parsing, and a parse
`ValueError` propagates (error case).  `continue_on_error` is true
unless the action's priority is exactly `high`. -/
def mkStep (i : Nat) (a : ActionRec) : Except Unit RemediationStep :=
  (parseTimeEstimate (a.estimated_time.getD "5m")).map fun t =>
    { name := a.action.getD ("step_" ++ toString i)
      description := "Execute " ++ a.action.getD "unknown action"
      action_type := a.action.getD "unknown"
      parameters := a.parameters
      timeout_seconds := t
      continue_on_error := a.priority != some "high" }

/-- Method `_create_remediation_plan` (executor.py lines 138-174): an empty
`recommended_actions` list short-circuits to a plan with no steps;
otherwise each action becomes one step in order (a raised
`ValueError` from time parsing aborts the whole construction). -/
def createRemediationPlan (incident : Incident) (analysis : Analysis) :
    Except Unit RemediationPlan :=
  if analysis.recommended_actions.isEmpty then
    .ok { incident_id := incident.id, steps := [] }
  else
    (analysis.recommended_actions.enum.mapM (fun p => mkStep p.1 p.2)).map
      fun steps => { incident_id := incident.id, steps := steps }

/-- The step loop of `_execute_remediation_plan` with dry-run
disabled (executor.py lines 219-226): `f` is the outcome oracle for
`_execute_step` (which returns a boolean and never raises).  Returns
the steps executed, in order, together with the final `success`
flag: execution breaks with `success = false` at the first failed
step whose `continue_on_error` is false; any other failure leaves
`success` untouched. -/
def executeSteps (f : RemediationStep → Bool) :
    List RemediationStep → List RemediationStep × Bool
  | [] => ([], true)
  | s :: rest =>
    let ok := f s
    if !ok && !s.continue_on_error then ([s], false)
    else
      let r := executeSteps f rest
      (s :: r.1, r.2)

/-- The whole of `_execute_remediation_plan`'s execution phase
(executor.py lines 213-237): in dry-run mode every step is
synthesized as succeeded with no handler invoked; otherwise the step
loop above runs. -/
def executePlanRun (dryRun : Bool) (f : RemediationStep → Bool)
    (steps : List RemediationStep) : List RemediationStep × Bool :=
  if dryRun then (steps, true) else executeSteps f steps

/-- Result of `asyncio.Queue.put` as observed by an awaiting caller:
either the item is appended, or (queue full) the caller is suspended
until space frees up.  Awaiting `put` never raises
`asyncio.QueueFull` — only `put_nowait` does.  A `maxsize` of 0
means an unbounded queue in asyncio. -/
inductive PutResult (α : Type) where
  | completed (q : List α)
  | suspended
  deriving DecidableEq, Repr

/-- Python `asyncio.Queue(maxsize).put` behaviour. -/
def asyncioQueuePut {α : Type} (maxsize : Nat) (q : List α) (x : α) :
    PutResult α :=
  if maxsize = 0 then .completed (q ++ [x])
  else if q.length < maxsize then .completed (q ++ [x])
  else .suspended

/-- How `_handle_remediation_request` disposes of one request. -/
inductive AdmissionOutcome where
  /-- plan construction raised; caught and logged at executor.py
  lines 135-136. -/
  | planError
  /-- the `if not plan.steps: return` branch (executor.py lines 124-126). -/
  | noSteps
  /-- the (incident, plan) pair was appended to the execution
  queue. -/
  | enqueued (q : List (Incident × RemediationPlan))
  /-- the call `await self.execution_queue.put(...)` found the queue full and
  suspended the handler. -/
  | blockedOnFullQueue
  /-- the `except asyncio.QueueFull` drop-with-warning branch
  (executor.py lines 132-133). -/
  | droppedWithWarning
  deriving DecidableEq, Repr

/-- Handler `_handle_remediation_request` (executor.py lines 111-136) as a
function of the execution queue contents: build the plan, return on
no steps, then `await self.execution_queue.put((incident, plan))`.
The queue is created with `maxsize = config.max_concurrent`
(executor.py line 42).  Because awaiting `put` suspends on a full
queue instead of raising, the `except asyncio.QueueFull` branch can
never produce `droppedWithWarning`. -/
def handleRemediationRequestAdmission (cfg : RemediationConfig)
    (q : List (Incident × RemediationPlan)) (incident : Incident)
    (analysis : Analysis) : AdmissionOutcome :=
  match createRemediationPlan incident analysis with
  | .error _ => .planError
  | .ok plan =>
    if plan.steps.isEmpty then .noSteps
    else
      match asyncioQueuePut cfg.max_concurrent q (incident, plan) with
      | .completed q' => .enqueued q'
      | .suspended => .blockedOnFullQueue

/-! ## Incident registry and periodic cleanup -/

/-- The orchestrator's `self.incidents` dict: insertion-ordered
association list from incident id to incident. -/
def Registry := List (String × Incident)

/-- Lookup `self.incidents.get(incident_id)`. -/
def lookupReg (reg : Registry) (id : String) : Option Incident :=
  (List.find? (fun p => p.1 == id) reg).map (fun p => p.2)

/-- In-place mutation of the incident stored under `id` (the handlers
mutate the registry's own object). -/
def updateReg (reg : Registry) (id : String) (f : Incident → Incident) :
    Registry :=
  List.map (fun p => if p.1 == id then (p.1, f p.2) else p) reg

/-- Field `datetime.hour` of a clock value measured in seconds. -/
def hourOf (t : Nat) : Nat := t / 3600 % 24

/-- Python `datetime.replace(hour=h)`: requires `0 ≤ h ≤ 23`, else
raises `ValueError` (error case); on success the hour field is
replaced with minute/second/day kept. -/
def pyReplaceHour (t : Nat) (h : Int) : Except Unit Nat :=
  if h < 0 ∨ 23 < h then .error ()
  else .ok (t / 86400 * 86400 + h.toNat * 3600 + t % 3600)

/-- Method `_cleanup_old_incidents` (orchestrator.py lines 344-359): the
cutoff is computed as `now.replace(hour=now.hour - 24)`, then every
incident in a terminal state with `updated_at < cutoff` is deleted.
A `ValueError` from `replace` propagates out of the coroutine
(error case). -/
def cleanupOldIncidents (now : Nat) (reg : Registry) : Except Unit Registry :=
  match pyReplaceHour now ((hourOf now : Int) - 24) with
  | .error e => .error e
  | .ok cutoff =>
    .ok (reg.filter fun p =>
      !(p.2.state.isTerminal && decide (p.2.updated_at < cutoff)))

/-- One cleanup pass as seen from `_orchestration_loop`
(orchestrator.py lines 326-342): an exception escaping
`_cleanup_old_incidents` is caught and logged by the loop, leaving
the registry as it was. -/
def orchestrationLoopCleanup (now : Nat) (reg : Registry) : Registry :=
  match cleanupOldIncidents now reg with
  | .ok reg' => reg'
  | .error _ => reg

/-! ## The post-analysis remediation subsystem

A small labelled transition system tying the executor and the
orchestrator's `remediation.completed` handling together: system
state is the incident registry, the execution queue, and the
remediation events pending on the bus.  Steps are the handler and
worker executions the code can perform: consuming a pending
`remediation.request` (executor.py lines 111-136), a worker running a
queued plan to completion and publishing `remediation.completed`
(executor.py lines 176-258), and the orchestrator consuming a
`remediation.completed` event (orchestrator.py lines 191-220).
Events pending on the bus are consumed in any order (handler
dispatch is concurrent). -/

/-- A remediation-subsystem event pending on the event bus. -/
inductive REvent where
  /-- topic `remediation.request {incident, analysis}`. -/
  | request (incident : Incident) (analysis : Analysis)
  /-- topic `remediation.completed {incident_id, success, result}`. -/
  | completed (incidentId : String) (success : Bool) (result : RemediationResult)
  deriving DecidableEq, Repr

/-- The incident a pending event concerns. -/
def REvent.incidentId : REvent → String
  | .request inc _ => inc.id
  | .completed cid _ _ => cid

/-- Queue contents after `_handle_remediation_request` disposes of
one request: unchanged on plan error or on a plan with no steps,
otherwise the (incident, plan) pair is appended (an admission
suspended on a full queue completes once a worker frees a slot, so
the appended form also covers the resumed put). -/
def requestQueueEffect (q : List (Incident × RemediationPlan))
    (incident : Incident) (analysis : Analysis) :
    List (Incident × RemediationPlan) :=
  match createRemediationPlan incident analysis with
  | .error _ => q
  | .ok plan => if plan.steps.isEmpty then q else q ++ [(incident, plan)]

/-- The `remediation.completed` payload summarising one plan run
(executor.py lines 243-254): `executed` are the steps that ran, `ok`
the plan success flag, `total` the plan's step count and `d` the
elapsed seconds. -/
def completionResult (executed : List RemediationStep)
    (f : RemediationStep → Bool) (ok : Bool) (total d : Nat) :
    RemediationResult :=
  { execution_state := if ok then "completed" else "failed"
    steps_completed := (executed.filter f).length
    total_steps := total
    duration := d }

/-- State of the remediation subsystem. -/
structure RSys where
  reg : Registry
  queue : List (Incident × RemediationPlan)
  pending : List REvent

/-- One step of the remediation subsystem.  The worker step is
parametrised by the step-outcome oracle `f` (what `_execute_step`
returns for each step) and the elapsed duration `d`; the completion
step by the orchestrator's clock `now`. -/
inductive RStep (cfg : RemediationConfig) : RSys → RSys → Prop
  | handleRequest (s : RSys) (l1 l2 : List REvent) (inc : Incident)
      (an : Analysis)
      (hp : s.pending = l1 ++ REvent.request inc an :: l2) :
      RStep cfg s
        { reg := s.reg
          queue := requestQueueEffect s.queue inc an
          pending := l1 ++ l2 }
  | workerRun (s : RSys) (entry : Incident × RemediationPlan)
      (q' : List (Incident × RemediationPlan))
      (f : RemediationStep → Bool) (d : Nat)
      (hq : s.queue = entry :: q') :
      RStep cfg s
        { reg := s.reg
          queue := q'
          pending := s.pending ++
            [REvent.completed entry.1.id
              (executePlanRun cfg.dry_run f entry.2.steps).2
              (completionResult (executePlanRun cfg.dry_run f entry.2.steps).1 f
                (executePlanRun cfg.dry_run f entry.2.steps).2
                entry.2.steps.length d)] }
  | handleCompleted (s : RSys) (l1 l2 : List REvent) (cid : String)
      (ok : Bool) (res : RemediationResult) (now : Nat)
      (hp : s.pending = l1 ++ REvent.completed cid ok res :: l2) :
      RStep cfg s
        { reg := updateReg s.reg cid (handleRemediationCompleted ok res now)
          queue := s.queue
          pending := l1 ++ l2 }

/-- No pending event and no queued plan concerns incident `id`: in
particular no `remediation.completed` for `id` is ever on the bus. -/
def noRemediationTraffic (id : String) (s : RSys) : Prop :=
  (∀ e ∈ s.pending, REvent.incidentId e ≠ id) ∧
  (∀ p ∈ s.queue, (Prod.fst p).id ≠ id)

/-! ## Lemmas: circuit breaker runs -/

namespace CircuitBreaker

theorem recordFailure_closed_lt {cb : CircuitBreaker} {t : Nat}
    (h : cb.state = .closed) (hlt : cb.failure_count + 1 < cb.failure_threshold) :
    recordFailure t cb =
      { cb with failure_count := cb.failure_count + 1
                last_failure_time := some t } := by
  simp only [recordFailure, h]
  split
  · omega
  · rfl

theorem recordFailure_closed_ge {cb : CircuitBreaker} {t : Nat}
    (h : cb.state = .closed) (hge : cb.failure_threshold ≤ cb.failure_count + 1) :
    recordFailure t cb =
      { cb with state := .open, failure_count := cb.failure_count + 1
                success_count := 0, last_failure_time := some t } := by
  simp only [recordFailure, h, transitionToOpen]
  split
  · rfl
  · omega

theorem recordFailures_cons (cb : CircuitBreaker) (t : Nat) (ts : List Nat) :
    recordFailures cb (t :: ts) = recordFailures (recordFailure t cb) ts := rfl

/-- A run of consecutive failures from `closed` that exactly exhausts
the failure budget trips the breaker to `open`, with
`last_failure_time` the time of the last call and the configuration
untouched. -/
theorem failure_streak_opens : ∀ (ts : List Nat) (cb : CircuitBreaker),
    cb.state = .closed →
    cb.failure_count + ts.length = cb.failure_threshold → ts ≠ [] →
    (recordFailures cb ts).state = .open ∧
    (recordFailures cb ts).failure_count = cb.failure_threshold ∧
    (recordFailures cb ts).last_failure_time = ts.getLast? ∧
    (recordFailures cb ts).reset_timeout = cb.reset_timeout := by
  intro ts
  induction ts with
  | nil => intro cb _ _ hne; exact absurd rfl hne
  | cons t ts ih =>
    intro cb hcl hcount _
    simp only [List.length_cons] at hcount
    rcases ts with _ | ⟨u, us⟩
    · simp only [List.length_nil] at hcount
      rw [recordFailures_cons, recordFailure_closed_ge hcl (by omega)]
      exact ⟨rfl, by show cb.failure_count + 1 = cb.failure_threshold; omega,
        rfl, rfl⟩
    · have hlt : cb.failure_count + 1 < cb.failure_threshold := by
        simp only [List.length_cons] at hcount
        omega
      rw [recordFailures_cons, recordFailure_closed_lt hcl hlt]
      have h2 := ih { cb with failure_count := cb.failure_count + 1
                              last_failure_time := some t }
        hcl
        (show cb.failure_count + 1 + (u :: us).length = cb.failure_threshold by
          simp only [List.length_cons] at hcount ⊢
          omega)
        (List.cons_ne_nil u us)
      rw [List.getLast?_cons_cons]
      exact h2

theorem recordSuccess_half_lt {cb : CircuitBreaker}
    (h : cb.state = .halfOpen) (hlt : cb.success_count + 1 < cb.success_threshold) :
    recordSuccess cb = { cb with success_count := cb.success_count + 1 } := by
  simp only [recordSuccess, h]
  split
  · omega
  · rfl

theorem recordSuccess_half_ge {cb : CircuitBreaker}
    (h : cb.state = .halfOpen) (hge : cb.success_threshold ≤ cb.success_count + 1) :
    recordSuccess cb =
      { cb with state := .closed, failure_count := 0, success_count := 0 } := by
  simp only [recordSuccess, h, transitionToClosed]
  split
  · rfl
  · omega

/-- A run of consecutive successes from `half_open` that exactly
exhausts the success budget closes the breaker and zeroes the failure
count. -/
theorem success_streak_closes : ∀ (n : Nat) (cb : CircuitBreaker),
    cb.state = .halfOpen → cb.success_count + n = cb.success_threshold →
    n ≠ 0 →
    (recordSuccesses cb n).state = .closed ∧
    (recordSuccesses cb n).failure_count = 0 := by
  intro n
  induction n with
  | zero => intro cb _ _ hne; exact absurd rfl hne
  | succ k ih =>
    intro cb hho hcount _
    by_cases hk : k = 0
    · subst hk
      have hr := recordSuccess_half_ge hho (by omega)
      show (recordSuccesses (recordSuccess cb) 0).state = .closed ∧
        (recordSuccesses (recordSuccess cb) 0).failure_count = 0
      rw [hr]
      exact ⟨rfl, rfl⟩
    · have hlt : cb.success_count + 1 < cb.success_threshold := by omega
      have hr := recordSuccess_half_lt hho hlt
      show (recordSuccesses (recordSuccess cb) k).state = .closed ∧
        (recordSuccesses (recordSuccess cb) k).failure_count = 0
      rw [hr]
      exact ih { cb with success_count := cb.success_count + 1 } hho
        (show cb.success_count + 1 + k = cb.success_threshold by omega) hk

end CircuitBreaker

/-! ## Claim theorems -/

/-- C2: for every circuit breaker starting in `closed` with a clean
failure count: (1) after `failure_threshold` consecutive
`record_failure()` calls the breaker is `open` and `can_execute()`
returns false as long as `reset_timeout` has not elapsed since the
last failure; (2) in `open`, once `reset_timeout` has elapsed since
the last recorded failure, the next `can_execute()` returns true and
the state becomes `half_open`; (3) `success_threshold` consecutive
`record_success()` calls from freshly-entered `half_open` return the
state to `closed` with `failure_count` reset to 0; (4) any
`record_failure()` while `half_open` returns the state to `open`. -/
theorem circuit_breaker_lifecycle :
    (∀ (cb : CircuitBreaker) (ts : List Nat) (last now : Nat),
      cb.state = .closed → cb.failure_count = 0 →
      ts.length = cb.failure_threshold → ts ≠ [] →
      ts.getLast? = some last → now < last + cb.reset_timeout →
      (CircuitBreaker.recordFailures cb ts).state = .open ∧
      ((CircuitBreaker.recordFailures cb ts).canExecute now).2 = false) ∧
    (∀ (cb : CircuitBreaker) (t now : Nat),
      cb.state = .open → cb.last_failure_time = some t →
      t + cb.reset_timeout ≤ now →
      (cb.canExecute now).2 = true ∧ (cb.canExecute now).1.state = .halfOpen) ∧
    (∀ cb : CircuitBreaker,
      cb.state = .halfOpen → cb.success_count = 0 → cb.success_threshold ≠ 0 →
      (CircuitBreaker.recordSuccesses cb cb.success_threshold).state = .closed ∧
      (CircuitBreaker.recordSuccesses cb cb.success_threshold).failure_count = 0) ∧
    (∀ (cb : CircuitBreaker) (now : Nat),
      cb.state = .halfOpen → (CircuitBreaker.recordFailure now cb).state = .open) := by
  refine ⟨?_, ?_, ?_, ?_⟩
  · intro cb ts last now hcl hfc hlen hne hlast hnow
    obtain ⟨hst, _, hlf, hrt⟩ :=
      CircuitBreaker.failure_streak_opens ts cb hcl (by omega) hne
    refine ⟨hst, ?_⟩
    rw [hlast] at hlf
    simp only [CircuitBreaker.canExecute, hst, hlf]
    split
    · omega
    · rfl
  · intro cb t now hop hlf hel
    simp only [CircuitBreaker.canExecute, hop, hlf]
    split
    · exact ⟨rfl, rfl⟩
    · omega
  · intro cb hho hsc hst
    exact CircuitBreaker.success_streak_closes cb.success_threshold cb hho
      (by omega) hst
  · intro cb now hho
    simp [CircuitBreaker.recordFailure, CircuitBreaker.transitionToOpen, hho]

/-- An open breaker (thresholds 2/2, reset timeout 30) whose last
failure happened at time 11, used as a witness input. -/
def cbOpenSample : CircuitBreaker :=
  { CircuitBreaker.init 2 30 2 with state := .open, last_failure_time := some 11 }

/-- A freshly half-opened breaker, used as a witness input. -/
def cbHalfSample : CircuitBreaker :=
  { CircuitBreaker.init 2 30 2 with state := .halfOpen }

/-- Witness for C2 at a concrete breaker: thresholds 2/2, reset
timeout 30; failures at times 10 and 11, probe at 20 (blocked) and at
41 (half-open trial allowed); two successes close it again; a failure
at half-open reopens it. -/
theorem circuit_breaker_lifecycle_witness :
    ((CircuitBreaker.recordFailures (CircuitBreaker.init 2 30 2) [10, 11]).state
        = .open ∧
      ((CircuitBreaker.recordFailures (CircuitBreaker.init 2 30 2) [10, 11]).canExecute
        20).2 = false) ∧
    ((cbOpenSample.canExecute 41).2 = true ∧
      (cbOpenSample.canExecute 41).1.state = .halfOpen) ∧
    ((CircuitBreaker.recordSuccesses cbHalfSample 2).state = .closed ∧
      (CircuitBreaker.recordSuccesses cbHalfSample 2).failure_count = 0) ∧
    (CircuitBreaker.recordFailure 50 cbHalfSample).state = .open := by
  refine ⟨circuit_breaker_lifecycle.1 _ [10, 11] 11 20 rfl rfl (by decide)
      (by decide) (by decide) (by decide),
    circuit_breaker_lifecycle.2.1 cbOpenSample 11 41 rfl rfl (by decide),
    circuit_breaker_lifecycle.2.2.1 cbHalfSample rfl rfl (by decide),
    circuit_breaker_lifecycle.2.2.2 cbHalfSample 50 rfl⟩

/-- C3: with dry-run disabled, plan steps execute strictly in list
order (what ran is always an initial segment of the plan);
execution stops at the first failed step whose `continue_on_error` is
false, with plan success false and no later step executed; and when
every failed step has `continue_on_error` true, every step executes
and the plan success flag is true. -/
theorem plan_execution_order_and_abort :
    (∀ (f : RemediationStep → Bool) (steps : List RemediationStep),
      ∃ rest, steps = (executePlanRun false f steps).1 ++ rest) ∧
    (∀ (f : RemediationStep → Bool) (pre : List RemediationStep)
      (s : RemediationStep) (post : List RemediationStep),
      (∀ t ∈ pre, f t = true ∨ t.continue_on_error = true) →
      f s = false → s.continue_on_error = false →
      executePlanRun false f (pre ++ s :: post) = (pre ++ [s], false)) ∧
    (∀ (f : RemediationStep → Bool) (steps : List RemediationStep),
      (∀ s ∈ steps, f s = false → s.continue_on_error = true) →
      executePlanRun false f steps = (steps, true)) := by
  refine ⟨?_, ?_, ?_⟩
  · intro f steps
    simp only [executePlanRun, Bool.false_eq_true, if_false]
    induction steps with
    | nil => exact ⟨[], rfl⟩
    | cons s rest ih =>
      simp only [executeSteps]
      split
      · exact ⟨rest, rfl⟩
      · obtain ⟨r, hr⟩ := ih
        exact ⟨r, by simpa using hr⟩
  · intro f pre s post hpre hf hc
    simp only [executePlanRun, Bool.false_eq_true, if_false]
    induction pre with
    | nil =>
      simp only [List.nil_append, executeSteps, hf, hc]
      rfl
    | cons t pre ih =>
      have ht := hpre t (List.mem_cons_self t pre)
      have hrec := ih fun u hu => hpre u (List.mem_cons_of_mem t hu)
      simp only [List.cons_append, executeSteps, hrec]
      rcases ht with ht | ht <;> simp [ht, hrec]
  · intro f steps hsteps
    simp only [executePlanRun, Bool.false_eq_true, if_false]
    induction steps with
    | nil => rfl
    | cons s rest ih =>
      have hrec := ih fun u hu hfu => hsteps u (List.mem_cons_of_mem s hu) hfu
      simp only [executeSteps, hrec]
      by_cases hf : f s = true
      · simp [hf]
      · have := hsteps s (List.mem_cons_self s rest) (by simpa using hf)
        simp [this]

/-- A failing step that aborts its plan (priority-high action ⇒
`continue_on_error = false`), used as a witness input. -/
def stepA : RemediationStep :=
  { name := "restart_pod", description := "Execute restart_pod"
    action_type := "restart_pod", parameters := []
    timeout_seconds := 60, continue_on_error := false }

/-- The same failing step but continuable, used as a witness input. -/
def stepA' : RemediationStep :=
  { stepA with continue_on_error := true }

/-- A succeeding follow-up step, used as a witness input. -/
def stepB : RemediationStep :=
  { name := "check_pod_logs", description := "Execute check_pod_logs"
    action_type := "check_pod_logs", parameters := []
    timeout_seconds := 300, continue_on_error := true }

/-- The step-outcome oracle used by the witness: only `stepB`
succeeds. -/
def witnessOracle : RemediationStep → Bool := fun s => s.name == "check_pod_logs"

/-- Witness for C3 at the spec's two example plans: [A(fails,
non-continuable), B] stops after A with plan success false; [A(fails,
continuable), B(succeeds)] runs both with plan success true. -/
theorem plan_execution_order_and_abort_witness :
    executePlanRun false witnessOracle [stepA, stepB] = ([stepA], false) ∧
    executePlanRun false witnessOracle [stepA', stepB] = ([stepA', stepB], true) ∧
    ∃ rest, [stepA, stepB] = (executePlanRun false witnessOracle [stepA, stepB]).1 ++ rest := by
  refine ⟨?_, ?_, plan_execution_order_and_abort.1 witnessOracle [stepA, stepB]⟩
  · have h := plan_execution_order_and_abort.2.1 witnessOracle [] stepA [stepB]
      (by intro t ht; cases ht) (by decide) (by decide)
    simpa using h
  · exact plan_execution_order_and_abort.2.2 witnessOracle [stepA', stepB]
      (by intro s hs hf; fin_cases hs <;> rfl)

/-- C7: `_should_remediate` evaluates its rules in the fixed order
dry-run, severity, confidence, approval, first match winning: false
under dry-run; else false for info/warning severity; else false when
the analysis confidence (defaulted to 0) is below 0.7; else false
when the global approval flag is set; else true.  In particular
severity=warning, confidence=0.95, dry_run=false,
require_approval=false yields false via the severity gate. -/
theorem should_remediate_rule_order :
    (∀ (cfg : RemediationConfig) (inc : Incident) (an : Analysis),
      cfg.dry_run = true → shouldRemediate cfg inc an = false) ∧
    (∀ (cfg : RemediationConfig) (inc : Incident) (an : Analysis),
      cfg.dry_run = false →
      (inc.severity = .info ∨ inc.severity = .warning) →
      shouldRemediate cfg inc an = false) ∧
    (∀ (cfg : RemediationConfig) (inc : Incident) (an : Analysis),
      cfg.dry_run = false →
      ¬(inc.severity = .info ∨ inc.severity = .warning) →
      an.confidence.getD 0 < 7/10 →
      shouldRemediate cfg inc an = false) ∧
    (∀ (cfg : RemediationConfig) (inc : Incident) (an : Analysis),
      cfg.dry_run = false →
      ¬(inc.severity = .info ∨ inc.severity = .warning) →
      ¬(an.confidence.getD 0 < 7/10) →
      cfg.require_approval = true →
      shouldRemediate cfg inc an = false) ∧
    (∀ (cfg : RemediationConfig) (inc : Incident) (an : Analysis),
      cfg.dry_run = false →
      ¬(inc.severity = .info ∨ inc.severity = .warning) →
      ¬(an.confidence.getD 0 < 7/10) →
      cfg.require_approval = false →
      shouldRemediate cfg inc an = true) ∧
    (∀ (cfg : RemediationConfig) (inc : Incident) (an : Analysis),
      cfg.dry_run = false → cfg.require_approval = false →
      inc.severity = .warning → an.confidence = some (19/20) →
      shouldRemediate cfg inc an = false) := by
  refine ⟨?_, ?_, ?_, ?_, ?_, ?_⟩
  · intro cfg inc an h; simp [shouldRemediate, h]
  · intro cfg inc an hd hs; simp [shouldRemediate, hd, hs]
  · intro cfg inc an hd hs hc; simp [shouldRemediate, hd, hs, hc]
  · intro cfg inc an hd hs hc ha; simp [shouldRemediate, hd, hs, hc, ha]
  · intro cfg inc an hd hs hc ha; simp [shouldRemediate, hd, hs, hc, ha]
  · intro cfg inc an hd ha hs hc
    simp [shouldRemediate, hd, hs, hc, ha]

/-- Forward position of a state in the lifecycle chain
`new → analyzing → remediating → {resolved, failed}`. -/
def stateRank : IncidentState → Nat
  | .new => 0
  | .analyzing => 1
  | .remediating => 2
  | .resolved => 3
  | .failed => 3

/-- A warning-severity incident used as a witness input. -/
def warnIncident : Incident :=
  { id := "inc-1", service := "frontend", incidentType := "high_cpu"
    severity := .warning, state := .analyzing, root_cause := none
    remediation_result := none, created_at := 0, updated_at := 0
    resolved_at := none }

/-- A critical-severity variant of the witness incident. -/
def critIncident : Incident :=
  { warnIncident with severity := .critical }

/-- A high-confidence analysis used as a witness input. -/
def confAnalysis : Analysis :=
  { summary := "s", confidence := some (19/20), recommended_actions := [] }

/-- Witness for C7: the spec's concrete instance (warning severity,
confidence 0.95, no dry-run, no approval) is refused by the severity
gate, and flipping severity to critical makes it remediate. -/
theorem should_remediate_rule_order_witness :
    shouldRemediate ⟨false, false, 3⟩ warnIncident confAnalysis = false ∧
    shouldRemediate ⟨false, false, 3⟩ critIncident confAnalysis = true := by
  constructor
  · exact should_remediate_rule_order.2.2.2.2.2 ⟨false, false, 3⟩ warnIncident
      confAnalysis rfl rfl rfl rfl
  · exact should_remediate_rule_order.2.2.2.2.1 ⟨false, false, 3⟩ critIncident
      confAnalysis rfl (by decide)
      (by show ¬((confAnalysis.confidence).getD 0 < 7/10); norm_num [confAnalysis])
      rfl

/-- C1 counterexample: `_handle_analysis_completed` sets the state to
REMEDIATING and broadcasts it (orchestrator.py lines 166-172) before
consulting `_should_remediate`; on the concrete not-warranted input
(warning severity) the incident therefore does enter — and is
broadcast in — the remediating state on its way to resolved,
contradicting the claim's "without ever entering the remediating
state". -/
theorem analysis_completed_transient_remediating :
    (handleAnalysisCompleted ⟨false, false, 3⟩ confAnalysis 50
        warnIncident).remediationRequested = false ∧
    (handleAnalysisCompleted ⟨false, false, 3⟩ confAnalysis 50
        warnIncident).incident.state = .resolved ∧
    IncidentState.remediating ∈
      (handleAnalysisCompleted ⟨false, false, 3⟩ confAnalysis 50
        warnIncident).broadcastStates := by
  have h : shouldRemediate ⟨false, false, 3⟩
      { warnIncident with root_cause := some confAnalysis
                          state := IncidentState.remediating
                          updated_at := 50 } confAnalysis = false := by
    simp [shouldRemediate, warnIncident]
  simp [handleAnalysisCompleted, h]

/-- C1 amended: on analysis completion an incident in `analyzing` is
first moved to `remediating` (and broadcast as such); when
remediation is warranted it stays there with a remediation request
published, otherwise it is moved on to `resolved` (with `resolved_at`
stamped) within the same handler; either way every state the incident
takes moves forward through
new → analyzing → remediating → {resolved, failed}. -/
theorem analysis_completed_state_transitions :
    ∀ (cfg : RemediationConfig) (an : Analysis) (now : Nat) (inc : Incident),
    inc.state = .analyzing →
    ((handleAnalysisCompleted cfg an now inc).remediationRequested = true →
      (handleAnalysisCompleted cfg an now inc).incident.state = .remediating ∧
      (handleAnalysisCompleted cfg an now inc).broadcastStates = [.remediating]) ∧
    ((handleAnalysisCompleted cfg an now inc).remediationRequested = false →
      (handleAnalysisCompleted cfg an now inc).incident.state = .resolved ∧
      (handleAnalysisCompleted cfg an now inc).broadcastStates
        = [.remediating, .resolved] ∧
      (handleAnalysisCompleted cfg an now inc).incident.resolved_at = some now) ∧
    List.Chain (fun a b => stateRank a ≤ stateRank b) inc.state
      ((handleAnalysisCompleted cfg an now inc).broadcastStates ++
        [(handleAnalysisCompleted cfg an now inc).incident.state]) := by
  intro cfg an now inc hst
  by_cases hw : shouldRemediate cfg
      { inc with root_cause := some an, state := IncidentState.remediating
                 updated_at := now } an
  · refine ⟨fun _ => ⟨?_, ?_⟩, fun hfalse => ?_, ?_⟩ <;>
      simp_all [handleAnalysisCompleted, hw, hst, List.chain_cons, stateRank]
  · refine ⟨fun htrue => ?_, fun _ => ⟨?_, ?_, ?_⟩, ?_⟩ <;>
      simp_all [handleAnalysisCompleted, hw, hst, List.chain_cons, stateRank]

/-- Witness for C1's amended theorem at the concrete not-warranted
input of the counterexample. -/
theorem analysis_completed_state_transitions_witness :
    warnIncident.state = .analyzing ∧
    ((handleAnalysisCompleted ⟨false, false, 3⟩ confAnalysis 50
        warnIncident).remediationRequested = false →
      (handleAnalysisCompleted ⟨false, false, 3⟩ confAnalysis 50
        warnIncident).incident.state = .resolved ∧
      (handleAnalysisCompleted ⟨false, false, 3⟩ confAnalysis 50
        warnIncident).broadcastStates = [.remediating, .resolved] ∧
      (handleAnalysisCompleted ⟨false, false, 3⟩ confAnalysis 50
        warnIncident).incident.resolved_at = some 50) :=
  ⟨rfl, (analysis_completed_state_transitions ⟨false, false, 3⟩ confAnalysis 50
    warnIncident rfl).2.1⟩

/-- A remediating incident with `resolved_at` unset, used as a
counterexample input. -/
def remIncident : Incident :=
  { warnIncident with severity := .critical, state := .remediating }

/-- A failure summary dict, used as a counterexample input. -/
def failResult : RemediationResult :=
  { execution_state := "failed", steps_completed := 0, total_steps := 1
    duration := 5 }

/-- C5 counterexample: finalizing a remediating incident as FAILED
(`_handle_remediation_completed` with `success=false`,
orchestrator.py lines 207-209) leaves `resolved_at` unset although
the state is terminal, so "resolved_at is set iff the state is
terminal" fails on this handler output. -/
theorem resolved_at_terminal_iff_fails :
    (handleRemediationCompleted false failResult 60 remIncident).state
      = .failed ∧
    (handleRemediationCompleted false failResult 60 remIncident).resolved_at
      = none ∧
    ¬((handleRemediationCompleted false failResult 60
        remIncident).resolved_at.isSome = true ↔
      (handleRemediationCompleted false failResult 60
        remIncident).state.isTerminal = true) := by
  refine ⟨rfl, rfl, ?_⟩
  intro h
  exact absurd (h.mpr rfl) (by decide)

/-- C5 amended: for an incident whose `resolved_at` is not yet set,
every event handler re-establishes "`resolved_at` is set iff the
state is `resolved`" — rather than iff the state is terminal: the
FAILED path never stamps `resolved_at`. -/
theorem resolved_at_iff_resolved :
    (∀ (now : Nat) (inc : Incident), inc.resolved_at = none →
      ((handleIncidentDetected now inc).resolved_at.isSome ↔
        (handleIncidentDetected now inc).state = .resolved)) ∧
    (∀ (cfg : RemediationConfig) (an : Analysis) (now : Nat) (inc : Incident),
      inc.resolved_at = none →
      ((handleAnalysisCompleted cfg an now inc).incident.resolved_at.isSome ↔
        (handleAnalysisCompleted cfg an now inc).incident.state = .resolved)) ∧
    (∀ (ok : Bool) (res : RemediationResult) (now : Nat) (inc : Incident),
      inc.resolved_at = none →
      ((handleRemediationCompleted ok res now inc).resolved_at.isSome ↔
        (handleRemediationCompleted ok res now inc).state = .resolved)) := by
  refine ⟨?_, ?_, ?_⟩
  · intro now inc h
    simp [handleIncidentDetected, h]
  · intro cfg an now inc h
    obtain ⟨i1, i2, i3, i4, i5, i6, i7, i8, i9, i10⟩ := inc
    simp only at h
    subst h
    by_cases hw : shouldRemediate cfg
        ⟨i1, i2, i3, i4, IncidentState.remediating, some an, i7, i8, now, none⟩
        an <;>
      simp [handleAnalysisCompleted, hw]
  · intro ok res now inc h
    cases ok <;> simp [handleRemediationCompleted, h]

/-- Witness for C5's amended theorem at concrete inputs: a detection,
a not-warranted analysis completion, and both remediation outcomes. -/
theorem resolved_at_iff_resolved_witness :
    warnIncident.resolved_at = none ∧
    ((handleIncidentDetected 10 warnIncident).resolved_at.isSome ↔
      (handleIncidentDetected 10 warnIncident).state = .resolved) ∧
    ((handleAnalysisCompleted ⟨false, false, 3⟩ confAnalysis 50
        warnIncident).incident.resolved_at.isSome ↔
      (handleAnalysisCompleted ⟨false, false, 3⟩ confAnalysis 50
        warnIncident).incident.state = .resolved) ∧
    ((handleRemediationCompleted false failResult 60 remIncident).resolved_at.isSome ↔
      (handleRemediationCompleted false failResult 60 remIncident).state
        = .resolved) ∧
    ((handleRemediationCompleted true failResult 60 remIncident).resolved_at.isSome ↔
      (handleRemediationCompleted true failResult 60 remIncident).state
        = .resolved) :=
  ⟨rfl, resolved_at_iff_resolved.1 10 warnIncident rfl,
    resolved_at_iff_resolved.2.1 ⟨false, false, 3⟩ confAnalysis 50 warnIncident rfl,
    resolved_at_iff_resolved.2.2 false failResult 60 remIncident rfl,
    resolved_at_iff_resolved.2.2 true failResult 60 remIncident rfl⟩

/-- Helper: any analysis whose confidence (defaulted to 0) is below
0.7 is never remediated, whatever the configuration and severity. -/
theorem low_confidence_never_remediates
    (cfg : RemediationConfig) (inc : Incident) (an : Analysis)
    (h : an.confidence.getD 0 < 7/10) :
    shouldRemediate cfg inc an = false := by
  by_cases hd : cfg.dry_run
  · simp [shouldRemediate, hd]
  by_cases hs : inc.severity = .info ∨ inc.severity = .warning
  · simp [shouldRemediate, hd, hs]
  simp [shouldRemediate, hd, hs, h]

/-- C9: the local fallback analysis path always ends in RESOLVED with
no remediation requested, for every configuration, clock and incident
(in particular regardless of severity): the synthesized analysis
carries confidence 0.6, which is below the 0.7 gate. -/
theorem fallback_path_never_remediates :
    ∀ (cfg : RemediationConfig) (now : Nat) (inc : Incident),
    (fallbackAnalysis inc).confidence = some (3/5) ∧
    ((3 : ℚ)/5 < 7/10) ∧
    shouldRemediate cfg inc (fallbackAnalysis inc) = false ∧
    (handleAnalysisFallback cfg now inc).remediationRequested = false ∧
    (handleAnalysisFallback cfg now inc).incident.state = .resolved := by
  intro cfg now inc
  have hconf : (fallbackAnalysis inc).confidence.getD 0 < 7/10 := by
    simp [fallbackAnalysis]
    norm_num
  have hw := low_confidence_never_remediates cfg
    { inc with root_cause := some (fallbackAnalysis inc)
               state := IncidentState.remediating
               updated_at := now } (fallbackAnalysis inc) hconf
  refine ⟨rfl, by norm_num, low_confidence_never_remediates cfg inc _ hconf, ?_, ?_⟩ <;>
    simp [handleAnalysisFallback, handleAnalysisCompleted, hw]

/-- C4: when the bounded execution queue (maxsize = max_concurrent)
is already full and a non-empty plan arrives, the admission path of
`_handle_remediation_request` suspends on `await queue.put(...)` —
awaiting `put` on a full asyncio queue blocks until space frees and
never raises `QueueFull`, so the `except asyncio.QueueFull`
drop-with-warning branch (executor.py lines 132-133) is unreachable:
the requester is blocked, not relieved by a lossy drop. -/
theorem full_queue_blocks_requester :
    ∀ (cfg : RemediationConfig) (q : List (Incident × RemediationPlan))
      (inc : Incident) (an : Analysis) (plan : RemediationPlan),
    0 < cfg.max_concurrent → q.length = cfg.max_concurrent →
    createRemediationPlan inc an = .ok plan → plan.steps ≠ [] →
    handleRemediationRequestAdmission cfg q inc an = .blockedOnFullQueue ∧
    handleRemediationRequestAdmission cfg q inc an ≠ .droppedWithWarning := by
  intro cfg q inc an plan hpos hfull hplan hsteps
  have hne : plan.steps.isEmpty = false := by
    cases hs : plan.steps
    · exact absurd hs hsteps
    · rfl
  have : handleRemediationRequestAdmission cfg q inc an = .blockedOnFullQueue := by
    simp only [handleRemediationRequestAdmission, hplan, hne, Bool.false_eq_true,
      if_false, asyncioQueuePut, hfull]
    have h0 : cfg.max_concurrent ≠ 0 := by omega
    simp [h0]
  exact ⟨this, by simp [this]⟩

/-- An analysis with a single high-priority recommended action
(estimated time 1m), used as a witness input. -/
def oneActionAnalysis : Analysis :=
  { summary := "s", confidence := some (9/10)
    recommended_actions :=
      [ { action := some "restart_pod", priority := some "high"
          parameters := [], estimated_time := some "1m" } ] }

/-- Witness for C4 at a concrete full queue: max_concurrent = 1, one
entry already queued, and a fresh one-step plan arriving: the
admission suspends instead of dropping. -/
theorem full_queue_blocks_requester_witness :
    (0 : Nat) < 1 ∧
    ([((warnIncident, ⟨"inc-1", [stepA]⟩) : Incident × RemediationPlan)]).length = 1 ∧
    createRemediationPlan warnIncident oneActionAnalysis
      = .ok ⟨"inc-1", [stepA]⟩ ∧
    handleRemediationRequestAdmission ⟨false, false, 1⟩
      [(warnIncident, ⟨"inc-1", [stepA]⟩)] warnIncident oneActionAnalysis
      = .blockedOnFullQueue := by
  refine ⟨by decide, rfl, rfl, ?_⟩
  exact (full_queue_blocks_requester ⟨false, false, 1⟩
    [(warnIncident, ⟨"inc-1", [stepA]⟩)] warnIncident oneActionAnalysis
    ⟨"inc-1", [stepA]⟩ (by decide) rfl rfl (by simp)).1

/-- A resolved incident last updated at time 0, used as a concrete
cleanup input. -/
def oldIncident : Incident :=
  { warnIncident with state := .resolved, resolved_at := some 0 }

/-- A registry holding only `oldIncident`, used as a concrete cleanup
input. -/
def oldRegistry : Registry := [("inc-1", oldIncident)]

/-- C6: `_cleanup_old_incidents` computes its cutoff as
`now.replace(hour=now.hour - 24)`; since the current hour is always
in [0, 23], the requested hour is negative and `replace` raises
`ValueError` on every run, so the coroutine aborts before the purge
loop and — the orchestration loop swallowing the exception — the
registry is never cleaned: even a terminal incident more than 24
hours stale survives every pass. -/
theorem cleanup_always_raises :
    (∀ (now : Nat) (reg : Registry),
      cleanupOldIncidents now reg = .error () ∧
      orchestrationLoopCleanup now reg = reg) ∧
    (oldIncident.state.isTerminal = true ∧
      oldIncident.updated_at + 86400 < 200000 ∧
      orchestrationLoopCleanup 200000 oldRegistry = oldRegistry ∧
      lookupReg oldRegistry "inc-1" = some oldIncident) := by
  have key : ∀ (now : Nat) (reg : Registry),
      cleanupOldIncidents now reg = .error () ∧
      orchestrationLoopCleanup now reg = reg := by
    intro now reg
    have h24 : hourOf now < 24 := Nat.mod_lt _ (by norm_num)
    have hneg : ((hourOf now : Int) - 24) < 0 := by
      have : (hourOf now : Int) < 24 := by exact_mod_cast h24
      omega
    have herr : cleanupOldIncidents now reg = .error () := by
      simp [cleanupOldIncidents, pyReplaceHour, hneg]
    exact ⟨herr, by simp [orchestrationLoopCleanup, herr]⟩
  exact ⟨key, rfl, by norm_num [oldIncident, warnIncident],
    (key 200000 oldRegistry).2, rfl⟩

/-! ## Lemmas: time-estimate parsing on digit strings -/

theorem digit_not_ws {c : Char} (h : isDigitCh c = true) : isWsChar c = false := by
  simp only [isDigitCh, Bool.and_eq_true, decide_eq_true_eq] at h
  simp only [isWsChar, Bool.or_eq_false_iff, decide_eq_false_iff_not]
  omega

theorem digit_lower {c : Char} (h : isDigitCh c = true) : asciiLower c = c := by
  simp only [isDigitCh, Bool.and_eq_true, decide_eq_true_eq] at h
  simp only [asciiLower]
  rw [if_neg]
  omega

theorem map_lower_digits {cs : List Char}
    (h : ∀ c ∈ cs, isDigitCh c = true) : cs.map asciiLower = cs := by
  induction cs with
  | nil => rfl
  | cons c cs ih =>
    rw [List.map_cons, digit_lower (h c (List.mem_cons_self c cs)),
      ih fun u hu => h u (List.mem_cons_of_mem c hu)]

theorem dropWhile_no_ws {cs : List Char}
    (h : ∀ c ∈ cs, isWsChar c = false) : cs.dropWhile isWsChar = cs := by
  cases cs with
  | nil => rfl
  | cons c cs => simp [List.dropWhile_cons, h c (List.mem_cons_self c cs)]

theorem stripWs_no_ws {cs : List Char}
    (h : ∀ c ∈ cs, isWsChar c = false) : stripWs cs = cs := by
  unfold stripWs
  rw [dropWhile_no_ws h,
    dropWhile_no_ws fun c hc => h c (List.mem_reverse.mp hc),
    List.reverse_reverse]

theorem validDigits_all : ∀ (cs : List Char), cs ≠ [] →
    (∀ c ∈ cs, isDigitCh c = true) → validDigits cs = true := by
  intro cs
  induction cs with
  | nil => intro h; exact absurd rfl h
  | cons c cs ih =>
    intro _ h
    cases cs with
    | nil => simpa [validDigits] using h c (List.mem_cons_self c [])
    | cons d rest =>
      have hd := h d (List.mem_cons_of_mem c (List.mem_cons_self d rest))
      have hdne : ¬(d = '_') := by
        intro he
        rw [he] at hd
        exact absurd hd (by decide)
      simp only [validDigits, hdne, if_false, Bool.and_eq_true]
      exact ⟨h c (List.mem_cons_self c (d :: rest)),
        ih (List.cons_ne_nil d rest) fun u hu => h u (List.mem_cons_of_mem c hu)⟩

theorem pyIntParse_digits : ∀ (cs : List Char), cs ≠ [] →
    (∀ c ∈ cs, isDigitCh c = true) →
    pyIntParse cs = some (digitsVal cs : Int) := by
  intro cs hne h
  have hs : stripWs cs = cs :=
    stripWs_no_ws fun c hc => digit_not_ws (h c hc)
  unfold pyIntParse
  rw [hs]
  cases cs with
  | nil => exact absurd rfl hne
  | cons c rest =>
    have hc := h c (List.mem_cons_self c rest)
    have h1 : ¬(c = '+') := by intro he; rw [he] at hc; exact absurd hc (by decide)
    have h2 : ¬(c = '-') := by intro he; rw [he] at hc; exact absurd hc (by decide)
    simp [h1, h2, validDigits_all (c :: rest) hne h]

theorem parse_suffix_core (cs : List Char) (suf : Char)
    (h : ∀ c ∈ cs, isDigitCh c = true)
    (hlow : asciiLower suf = suf) (hws : isWsChar suf = false) :
    stripWs ((cs ++ [suf]).map asciiLower) = cs ++ [suf] := by
  rw [List.map_append, map_lower_digits h, List.map_singleton, hlow]
  apply stripWs_no_ws
  intro c hc
  rcases List.mem_append.mp hc with hc | hc
  · exact digit_not_ws (h c hc)
  · rw [List.mem_singleton.mp hc]; exact hws

/-- C8 counterexample: the claim says the parser returns the default
300 for any unparseable value and never raises, but on `"abcs"` the
code takes the `s` branch and `int("abc")` raises `ValueError`, which
propagates. -/
theorem parse_time_estimate_not_total :
    parseTimeEstimate "abcs" = .error () ∧
    parseTimeEstimate "abcs" ≠ .ok 300 := by
  refine ⟨rfl, ?_⟩
  intro h
  rw [show parseTimeEstimate "abcs" = Except.error () from rfl] at h
  exact Except.noConfusion h

/-- C8 amended: the parser multiplies an integer prefix by 1/60/3600
for the suffixes `s`/`m`/`h` and defaults to 300 seconds only for
values with no recognised suffix; a value carrying an `s`/`m`/`h`
suffix whose prefix is not a valid integer literal raises `ValueError`
instead of defaulting — the parser is not total. -/
theorem parse_time_estimate_amended :
    (∀ cs : List Char, cs ≠ [] → (∀ c ∈ cs, isDigitCh c = true) →
      parseTimeEstimateL (cs ++ ['s']) = .ok (digitsVal cs : Int) ∧
      parseTimeEstimateL (cs ++ ['m']) = .ok ((digitsVal cs : Int) * 60) ∧
      parseTimeEstimateL (cs ++ ['h']) = .ok ((digitsVal cs : Int) * 3600)) ∧
    (∀ cs : List Char, (stripWs (cs.map asciiLower)).getLast? = none →
      parseTimeEstimateL cs = .ok 300) ∧
    (∀ (cs : List Char) (c : Char),
      (stripWs (cs.map asciiLower)).getLast? = some c →
      ¬(c = 's') → ¬(c = 'm') → ¬(c = 'h') →
      parseTimeEstimateL cs = .ok 300) ∧
    (parseTimeEstimateL ['a', 'b', 'c', 's'] = .error ()) := by
  refine ⟨?_, ?_, ?_, rfl⟩
  · intro cs hne h
    have hp := pyIntParse_digits cs hne h
    have hs := parse_suffix_core cs 's' h (by decide) (by decide)
    have hm := parse_suffix_core cs 'm' h (by decide) (by decide)
    have hh := parse_suffix_core cs 'h' h (by decide) (by decide)
    refine ⟨?_, ?_, ?_⟩
    · unfold parseTimeEstimateL
      rw [hs]
      simp [List.getLast?_concat, List.dropLast_concat, hp]
    · unfold parseTimeEstimateL
      rw [hm]
      simp [List.getLast?_concat, List.dropLast_concat, hp]
    · unfold parseTimeEstimateL
      rw [hh]
      simp [List.getLast?_concat, List.dropLast_concat, hp]
  · intro cs hnone
    simp [parseTimeEstimateL, hnone]
  · intro cs c hlast h1 h2 h3
    simp [parseTimeEstimateL, hlast, h1, h2, h3]

/-- Witness for C8's amended theorem: `"42m"` parses to 2520 seconds,
`"42x"` has no recognised suffix and defaults to 300, and `"abcs"`
raises. -/
theorem parse_time_estimate_amended_witness :
    parseTimeEstimateL (['4', '2'] ++ ['m']) = .ok 2520 ∧
    parseTimeEstimateL ['4', '2', 'x'] = .ok 300 := by
  constructor
  · have h := (parse_time_estimate_amended.1 ['4', '2'] (by decide)
      (by decide)).2.1
    simpa using h
  · exact parse_time_estimate_amended.2.2.1 ['4', '2', 'x'] 'x'
      (by decide) (by decide) (by decide) (by decide)

/-! ## Lemmas: registry and remediation-subsystem steps -/

theorem lookupReg_cons (k : String) (v : Incident) (rest : Registry)
    (id : String) :
    lookupReg ((k, v) :: rest) id =
      if k = id then some v else lookupReg rest id := by
  by_cases h : k = id <;>
    simp [lookupReg, List.find?_cons, h]

theorem updateReg_cons (k : String) (v : Incident) (rest : Registry)
    (cid : String) (f : Incident → Incident) :
    updateReg ((k, v) :: rest) cid f =
      (if k = cid then (k, f v) else (k, v)) :: updateReg rest cid f := by
  by_cases h : k = cid <;> simp [updateReg, h]

/-- Mutating the incident stored under a different id leaves a lookup
unchanged. -/
theorem lookup_update_ne (cid id : String) (f : Incident → Incident)
    (hne : cid ≠ id) : ∀ reg : Registry,
    lookupReg (updateReg reg cid f) id = lookupReg reg id := by
  intro reg
  induction reg with
  | nil => rfl
  | cons p rest ih =>
    obtain ⟨k, v⟩ := p
    rw [updateReg_cons]
    by_cases hkc : k = cid
    · have hkid : ¬(k = id) := by rw [hkc]; exact hne
      rw [if_pos hkc, lookupReg_cons, lookupReg_cons, if_neg hkid, if_neg hkid]
      exact ih
    · rw [if_neg hkc, lookupReg_cons, lookupReg_cons]
      by_cases hkid : k = id
      · rw [if_pos hkid, if_pos hkid]
      · rw [if_neg hkid, if_neg hkid]
        exact ih

/-- One step of the remediation subsystem neither creates traffic for
an incident that had none nor changes its registry entry. -/
theorem rstep_preserves_quiet (cfg : RemediationConfig) (id : String)
    {s s' : RSys} (hstep : RStep cfg s s')
    (hI : noRemediationTraffic id s) :
    noRemediationTraffic id s' ∧ lookupReg s'.reg id = lookupReg s.reg id := by
  obtain ⟨hev, hq⟩ := hI
  cases hstep with
  | handleRequest l1 l2 inc an hp =>
    refine ⟨⟨?_, ?_⟩, rfl⟩
    · intro e he
      apply hev
      rw [hp]
      rcases List.mem_append.mp he with h | h
      · exact List.mem_append.mpr (Or.inl h)
      · exact List.mem_append.mpr (Or.inr (List.mem_cons_of_mem _ h))
    · intro p hp2
      have hincid : inc.id ≠ id := by
        have := hev (REvent.request inc an)
          (by rw [hp]
              exact List.mem_append.mpr (Or.inr (List.mem_cons_self _ _)))
        simpa [REvent.incidentId] using this
      simp only [requestQueueEffect] at hp2
      cases hplan : createRemediationPlan inc an with
      | error e => rw [hplan] at hp2; exact hq p hp2
      | ok plan =>
        rw [hplan] at hp2
        dsimp only at hp2
        by_cases hsteps : plan.steps.isEmpty
        · rw [if_pos hsteps] at hp2
          exact hq p hp2
        · rw [if_neg hsteps] at hp2
          rcases List.mem_append.mp hp2 with h | h
          · exact hq p h
          · rw [List.mem_singleton.mp h]
            exact hincid
  | workerRun entry q' f d hq' =>
    have hentry : entry.1.id ≠ id :=
      hq entry (by rw [hq']; exact List.mem_cons_self _ _)
    refine ⟨⟨?_, ?_⟩, rfl⟩
    · intro e he
      rcases List.mem_append.mp he with h | h
      · exact hev e h
      · rw [List.mem_singleton.mp h]
        exact hentry
    · intro p hp2
      exact hq p (by rw [hq']; exact List.mem_cons_of_mem _ hp2)
  | handleCompleted l1 l2 cid ok res now hp =>
    have hcid : cid ≠ id := by
      have := hev (REvent.completed cid ok res)
        (by rw [hp]
            exact List.mem_append.mpr (Or.inr (List.mem_cons_self _ _)))
      simpa [REvent.incidentId] using this
    refine ⟨⟨?_, hq⟩, lookup_update_ne cid id _ hcid s.reg⟩
    intro e he
    apply hev
    rw [hp]
    rcases List.mem_append.mp he with h | h
    · exact List.mem_append.mpr (Or.inl h)
    · exact List.mem_append.mpr (Or.inr (List.mem_cons_of_mem _ h))

/-- C10: an analysis with no recommended actions yields a plan with
no steps, so `_handle_remediation_request` returns without queueing
anything; and in the remediation subsystem, an incident with no
pending remediation traffic never acquires any — in particular no
`remediation.completed` event for it is ever published — so its
registry entry is never touched again: once `remediating`, it stays
`remediating` along every reachable execution. -/
theorem no_actions_leaves_incident_remediating :
    (∀ (inc : Incident) (an : Analysis), an.recommended_actions = [] →
      createRemediationPlan inc an = .ok { incident_id := inc.id, steps := [] }) ∧
    (∀ (q : List (Incident × RemediationPlan)) (inc : Incident) (an : Analysis),
      an.recommended_actions = [] → requestQueueEffect q inc an = q) ∧
    (∀ (cfg : RemediationConfig) (id : String) (s s' : RSys),
      noRemediationTraffic id s →
      Relation.ReflTransGen (RStep cfg) s s' →
      noRemediationTraffic id s' ∧
      lookupReg s'.reg id = lookupReg s.reg id) ∧
    (∀ (cfg : RemediationConfig) (id : String) (s s' : RSys) (inc : Incident),
      noRemediationTraffic id s →
      Relation.ReflTransGen (RStep cfg) s s' →
      lookupReg s.reg id = some inc → inc.state = .remediating →
      ∃ inc', lookupReg s'.reg id = some inc' ∧ inc'.state = .remediating) := by
  have hplan : ∀ (inc : Incident) (an : Analysis),
      an.recommended_actions = [] →
      createRemediationPlan inc an = .ok { incident_id := inc.id, steps := [] } := by
    intro inc an h
    simp [createRemediationPlan, h]
  have hreach : ∀ (cfg : RemediationConfig) (id : String) (s s' : RSys),
      noRemediationTraffic id s →
      Relation.ReflTransGen (RStep cfg) s s' →
      noRemediationTraffic id s' ∧
      lookupReg s'.reg id = lookupReg s.reg id := by
    intro cfg id s s' hI htrans
    induction htrans with
    | refl => exact ⟨hI, rfl⟩
    | tail hab hbc ih =>
      obtain ⟨hI', heq⟩ := ih
      obtain ⟨hI'', heq'⟩ := rstep_preserves_quiet cfg id hbc hI'
      exact ⟨hI'', heq'.trans heq⟩
  refine ⟨hplan, ?_, hreach, ?_⟩
  · intro q inc an h
    simp [requestQueueEffect, hplan inc an h]
  · intro cfg id s s' inc hI htrans hlook hstate
    obtain ⟨_, heq⟩ := hreach cfg id s s' hI htrans
    exact ⟨inc, heq.trans hlook, hstate⟩

/-- The remediation subsystem as left after the empty-plan request
for `remIncident` was handled: the incident is registered as
remediating, the queue is empty and no event is pending. -/
def rSys0 : RSys :=
  { reg := [("inc-1", remIncident)], queue := [], pending := [] }

/-- Witness for C10 at a concrete system: the empty-actions analysis
produces a stepless plan, queue admission is a no-op, and the
incident registered as remediating is still remediating at the
(trivially reachable) current state. -/
theorem no_actions_leaves_incident_remediating_witness :
    createRemediationPlan remIncident confAnalysis
      = .ok { incident_id := "inc-1", steps := [] } ∧
    requestQueueEffect [] remIncident confAnalysis = [] ∧
    (∃ inc', lookupReg rSys0.reg "inc-1" = some inc' ∧
      inc'.state = .remediating) :=
  ⟨no_actions_leaves_incident_remediating.1 remIncident confAnalysis rfl,
    no_actions_leaves_incident_remediating.2.1 [] remIncident confAnalysis rfl,
    no_actions_leaves_incident_remediating.2.2.2 ⟨false, false, 1⟩ "inc-1"
      rSys0 rSys0 remIncident
      ⟨fun e he => absurd he (List.not_mem_nil e),
        fun p hp => absurd hp (List.not_mem_nil p)⟩
      Relation.ReflTransGen.refl rfl rfl⟩

end IRO
